import Mathlib

/-
Verification of the dfcache command-line front end
(src/dragonfly-client/src/bin/dfcache/main.rs).

The file embeds the source's data model and control flow shallowly:
`get_dfdaemon_download_client`, the `Command` union, `Command.execute`,
`Args` and `main` are translated from the Rust source.  The external
collaborators (the health client, the download client, the per-variant
handlers and the argument parser) live outside this source slice, so they
are modelled as explicit oracles; definitions whose doc comments begin
with "Modelled from the spec" follow the specification's words for those
missing parts.  Trace-instrumented variants record the sequence of
external calls so that temporal properties (ordering, at-most-once) can
be stated and proved.
-/

namespace Dfcache

/-- A filesystem path identifying the daemon's Unix domain socket
(`PathBuf` in the source, treated as an opaque location). -/
abbrev Endpoint := String

/-- Modelled from the spec: the error taxonomy of the external client
crates (`HealthClient` and `DfdaemonDownloadClient` are outside this
source slice).  A stage-1 failure is a connection error, a stage-2
failure a service-unavailable error, and a stage-3 failure a connection
error distinct from stage 1. -/
inductive DfError
  | healthConnectionError
  | serviceUnavailableError
  | downloadConnectionError
  deriving DecidableEq, Repr

/-- A health-check connection handle, carrying the endpoint it was
opened on. -/
structure HealthClient where
  endpoint : Endpoint
  deriving DecidableEq, Repr

/-- A download-client connection handle, carrying the endpoint it was
opened on. -/
structure DfdaemonDownloadClient where
  endpoint : Endpoint
  deriving DecidableEq, Repr

/-- The external daemon as observed through the three fallible external
operations the bootstrap calls: whether the health-check connection can
be opened at an endpoint, whether the download service there reports
ready, and whether the download-client connection can be opened. -/
structure DaemonEnv where
  healthConnectOk : Endpoint → Bool
  downloadServing : Endpoint → Bool
  downloadConnectOk : Endpoint → Bool

/-- Modelled from the spec: `HealthClient::new_unix` opens a health-check
connection to the endpoint; failure yields a connection error. -/
def HealthClient.new_unix (env : DaemonEnv) (endpoint : Endpoint) :
    Except DfError HealthClient :=
  if env.healthConnectOk endpoint then .ok ⟨endpoint⟩
  else .error .healthConnectionError

/-- Modelled from the spec: `check_dfdaemon_download` asks whether the
download service is ready; a not-serving report and an RPC failure both
yield a service-unavailable error. -/
def HealthClient.check_dfdaemon_download (env : DaemonEnv)
    (self : HealthClient) : Except DfError Unit :=
  if env.downloadServing self.endpoint then .ok ()
  else .error .serviceUnavailableError

/-- Modelled from the spec: `DfdaemonDownloadClient::new_unix` opens the
download-client connection to the endpoint; failure yields a connection
error distinct from the health stage. -/
def DfdaemonDownloadClient.new_unix (env : DaemonEnv)
    (endpoint : Endpoint) : Except DfError DfdaemonDownloadClient :=
  if env.downloadConnectOk endpoint then .ok ⟨endpoint⟩
  else .error .downloadConnectionError

/-- Translation of `get_dfdaemon_download_client` from the source: check
dfdaemon's health, then get the dfdaemon download client; each fallible
step propagates its error with the try operator. -/
def get_dfdaemon_download_client (env : DaemonEnv) (endpoint : Endpoint) :
    Except DfError DfdaemonDownloadClient := do
  let health_client ← HealthClient.new_unix env endpoint
  let _ ← HealthClient.check_dfdaemon_download env health_client
  let dfdaemon_download_client ← DfdaemonDownloadClient.new_unix env endpoint
  return dfdaemon_download_client

/-- One observable external call made during the bootstrap, recording the
endpoint it was given and whether it succeeded. -/
inductive Event
  | healthClientNewUnix (endpoint : Endpoint) (ok : Bool)
  | checkDfdaemonDownload (endpoint : Endpoint) (ok : Bool)
  | dfdaemonDownloadClientNewUnix (endpoint : Endpoint) (ok : Bool)
  deriving DecidableEq, Repr

/-- The endpoint an event was issued against. -/
def Event.endpoint : Event → Endpoint
  | .healthClientNewUnix e _ => e
  | .checkDfdaemonDownload e _ => e
  | .dfdaemonDownloadClientNewUnix e _ => e

/-- Test for a health-client construction event. -/
def Event.isHealthNew : Event → Bool
  | .healthClientNewUnix _ _ => true
  | _ => false

/-- Test for a download-readiness health RPC event. -/
def Event.isCheck : Event → Bool
  | .checkDfdaemonDownload _ _ => true
  | _ => false

/-- Test for a download-client construction event. -/
def Event.isDownloadNew : Event → Bool
  | .dfdaemonDownloadClientNewUnix _ _ => true
  | _ => false

/-- The control flow of `get_dfdaemon_download_client`, additionally
recording the sequence of external calls it makes, in program order. -/
def get_dfdaemon_download_client_trace (env : DaemonEnv)
    (endpoint : Endpoint) :
    Except DfError DfdaemonDownloadClient × List Event :=
  match HealthClient.new_unix env endpoint with
  | .error e => (.error e, [.healthClientNewUnix endpoint false])
  | .ok health_client =>
    match HealthClient.check_dfdaemon_download env health_client with
    | .error e =>
      (.error e,
        [.healthClientNewUnix endpoint true,
         .checkDfdaemonDownload health_client.endpoint false])
    | .ok _ =>
      match DfdaemonDownloadClient.new_unix env endpoint with
      | .error e =>
        (.error e,
          [.healthClientNewUnix endpoint true,
           .checkDfdaemonDownload health_client.endpoint true,
           .dfdaemonDownloadClientNewUnix endpoint false])
      | .ok c =>
        (.ok c,
          [.healthClientNewUnix endpoint true,
           .checkDfdaemonDownload health_client.endpoint true,
           .dfdaemonDownloadClientNewUnix endpoint true])

/-- Wherever a download-client construction event occurs in a trace, a
successful download-readiness health check against the same endpoint
occurs strictly before it. -/
def downloadGatedByHealth (tr : List Event) : Prop :=
  ∀ pre ep ok post,
    tr = pre ++ Event.dfdaemonDownloadClientNewUnix ep ok :: post →
    Event.checkDfdaemonDownload ep true ∈ pre

/-- Characterization of the traced bootstrap by the three oracle
outcomes; shared by the claim proofs below. -/
theorem get_trace_eq (env : DaemonEnv) (ep : Endpoint) :
    get_dfdaemon_download_client_trace env ep =
      if env.healthConnectOk ep then
        if env.downloadServing ep then
          if env.downloadConnectOk ep then
            (.ok ⟨ep⟩,
              [.healthClientNewUnix ep true,
               .checkDfdaemonDownload ep true,
               .dfdaemonDownloadClientNewUnix ep true])
          else
            (.error .downloadConnectionError,
              [.healthClientNewUnix ep true,
               .checkDfdaemonDownload ep true,
               .dfdaemonDownloadClientNewUnix ep false])
        else
          (.error .serviceUnavailableError,
            [.healthClientNewUnix ep true,
             .checkDfdaemonDownload ep false])
      else
        (.error .healthConnectionError, [.healthClientNewUnix ep false]) := by
  cases h1 : env.healthConnectOk ep <;>
    cases h2 : env.downloadServing ep <;>
      cases h3 : env.downloadConnectOk ep <;>
        simp [get_dfdaemon_download_client_trace, HealthClient.new_unix,
          HealthClient.check_dfdaemon_download,
          DfdaemonDownloadClient.new_unix, h1, h2, h3]

/-- The plain bootstrap is the first component of the traced one; shared
by the claim proofs below. -/
theorem get_eq_trace_fst (env : DaemonEnv) (ep : Endpoint) :
    get_dfdaemon_download_client env ep =
      (get_dfdaemon_download_client_trace env ep).1 := by
  cases h1 : env.healthConnectOk ep <;>
    cases h2 : env.downloadServing ep <;>
      cases h3 : env.downloadConnectOk ep <;>
        simp [get_dfdaemon_download_client,
          get_dfdaemon_download_client_trace, HealthClient.new_unix,
          HealthClient.check_dfdaemon_download,
          DfdaemonDownloadClient.new_unix, h1, h2, h3, Bind.bind,
          Except.bind, Pure.pure, Except.pure]

/-- Modelled from the spec: the Import parameter struct (import.rs lies
outside this source slice): a local source path with the optional digest,
priority and url options of the CLI surface. -/
structure ImportCommand where
  path : String
  digest : Option String
  priority : Option Nat
  url : Option String
  deriving DecidableEq, Repr

/-- Modelled from the spec: the Export parameter struct (export.rs lies
outside this source slice): a task identifier and an optional output
path. -/
structure ExportCommand where
  id : String
  output : Option String
  deriving DecidableEq, Repr

/-- Modelled from the spec: the Stat parameter struct (stat.rs lies
outside this source slice): a task identifier. -/
structure StatCommand where
  id : String
  deriving DecidableEq, Repr

/-- Translation of the `Command` subcommand union from the source: a
closed tagged union with exactly the variants `Import`, `Export` and
`Stat`, each owning its parameter struct. -/
inductive Command
  | Import (cmd : ImportCommand)
  | Export (cmd : ExportCommand)
  | Stat (cmd : StatCommand)
  deriving DecidableEq, Repr

/-- Which handler `Command.execute` dispatched to. -/
inductive HandlerCall
  | importCall
  | exportCall
  | statCall
  deriving DecidableEq, Repr

/-- The three per-variant handlers (the `execute` methods of import.rs,
export.rs and stat.rs, outside this source slice), kept as oracles: each
maps its parameters to the result its execution produces. -/
structure HandlerEnv where
  importExecute : ImportCommand → Except DfError Unit
  exportExecute : ExportCommand → Except DfError Unit
  statExecute : StatCommand → Except DfError Unit

/-- Translation of `Command::execute` from the source: match on self and
invoke the matching variant's handler. -/
def Command.execute (henv : HandlerEnv) : Command → Except DfError Unit
  | .Import cmd => henv.importExecute cmd
  | .Export cmd => henv.exportExecute cmd
  | .Stat cmd => henv.statExecute cmd

/-- The dispatch of `Command.execute`, additionally recording which
handlers ran, in order. -/
def Command.execute_trace (henv : HandlerEnv) :
    Command → Except DfError Unit × List HandlerCall
  | .Import cmd => (henv.importExecute cmd, [.importCall])
  | .Export cmd => (henv.exportExecute cmd, [.exportCall])
  | .Stat cmd => (henv.statExecute cmd, [.statCall])

/-- The handler tag belonging to a Command variant. -/
def handlerCallOf : Command → HandlerCall
  | .Import _ => .importCall
  | .Export _ => .exportCall
  | .Stat _ => .statCall

/-- Translation of `Args` from the source: the top-level version flag and
the parsed subcommand. -/
structure Args where
  version : Bool
  command : Command
  deriving DecidableEq, Repr

/-- Translation of `main` from the source: execute the parsed command,
propagating its error with the try operator, and return Ok on success. -/
def main (henv : HandlerEnv) (args : Args) : Except DfError Unit := do
  let _ ← Command.execute henv args.command
  return ()

/-- The control flow of `main`, additionally recording which handlers
ran. -/
def main_trace (henv : HandlerEnv) (args : Args) :
    Except DfError Unit × List HandlerCall :=
  match Command.execute_trace henv args.command with
  | (.error e, calls) => (.error e, calls)
  | (.ok _, calls) => (.ok (), calls)

/-- Modelled from the spec: the outcome of `Args::parse` under the custom
version value parser (dragonfly-client-config lies outside this source
slice): when the top-level version flag is given, version metadata is
printed and the process exits before any subcommand is dispatched;
otherwise the parsed Args carry the subcommand and a cleared flag. -/
inductive ParseOutcome
  | exitWithVersion
  | parsed (args : Args)
  deriving DecidableEq, Repr

/-- Modelled from the spec: `Args::parse` on an invocation carrying the
given version flag and subcommand. -/
def parseArgs (versionFlag : Bool) (cmd : Command) : ParseOutcome :=
  if versionFlag then .exitWithVersion else .parsed ⟨false, cmd⟩

/-- Outcome of a whole process invocation: whether version metadata was
printed, the process result, and which handlers ran. -/
structure RunResult where
  versionPrinted : Bool
  result : Except DfError Unit
  calls : List HandlerCall
  deriving Repr

/-- A full invocation: parse, then either print version metadata and
stop, or hand the parsed Args to `main`. -/
def run (henv : HandlerEnv) (versionFlag : Bool) (cmd : Command) :
    RunResult :=
  match parseArgs versionFlag cmd with
  | .exitWithVersion => ⟨true, .ok (), []⟩
  | .parsed args =>
    let r := main_trace henv args
    ⟨false, r.1, r.2⟩

/-- A daemon environment in which every step succeeds at every
endpoint. -/
def envAllOk : DaemonEnv := ⟨fun _ => true, fun _ => true, fun _ => true⟩

/-- A daemon environment in which the health-check connection cannot be
opened. -/
def envNoHealth : DaemonEnv :=
  ⟨fun _ => false, fun _ => false, fun _ => false⟩

/-- A daemon environment in which the health connection opens but the
download service reports not ready. -/
def envNotServing : DaemonEnv :=
  ⟨fun _ => true, fun _ => false, fun _ => false⟩

/-- A daemon environment in which the health check succeeds but the
download-client connection fails. -/
def envDownloadDown : DaemonEnv :=
  ⟨fun _ => true, fun _ => true, fun _ => false⟩

/-- A trace containing no download-client construction event is gated
trivially. -/
theorem gated_of_no_download (tr : List Event)
    (h : ∀ e ∈ tr, Event.isDownloadNew e = false) :
    downloadGatedByHealth tr := by
  intro pre ep ok post heq
  exfalso
  have hm : Event.dfdaemonDownloadClientNewUnix ep ok ∈ tr := by
    rw [heq]; simp
  exact absurd (h _ hm) (by simp [Event.isDownloadNew])

/-- The three-step trace of a bootstrap that reached stage 3 is gated:
its only download event sits after the successful check on the same
endpoint. -/
theorem gated_full_trace (ep : Endpoint) (ok1 ok2 : Bool) :
    downloadGatedByHealth
      [Event.healthClientNewUnix ep ok1,
       Event.checkDfdaemonDownload ep true,
       Event.dfdaemonDownloadClientNewUnix ep ok2] := by
  intro pre ep2 ok post heq
  rcases pre with _ | ⟨x1, _ | ⟨x2, _ | ⟨x3, rest⟩⟩⟩
  · simp at heq
  · simp at heq
  · simp only [List.cons_append, List.nil_append, List.cons.injEq] at heq
    obtain ⟨hx1, hx2, hd, hpost⟩ := heq
    injection hd with hep hok
    subst hep
    subst hx2
    simp
  · simp at heq

/-- C1: no download RPC without a prior successful health check on the
same endpoint in the same invocation: every download-client construction
event in the bootstrap's call trace is strictly preceded by a successful
`check_dfdaemon_download` against the same endpoint, and a download
client handle is returned only when that successful check is in the
trace for the handle's endpoint. -/
theorem no_download_client_without_health_success (env : DaemonEnv)
    (ep : Endpoint) :
    downloadGatedByHealth (get_dfdaemon_download_client_trace env ep).2 ∧
    ∀ c, (get_dfdaemon_download_client_trace env ep).1 = Except.ok c →
      Event.checkDfdaemonDownload c.endpoint true ∈
        (get_dfdaemon_download_client_trace env ep).2 := by
  rw [get_trace_eq]
  split_ifs with h1 h2 h3
  · refine ⟨gated_full_trace ep true true, ?_⟩
    intro c hc
    simp only at hc
    cases hc
    simp
  · exact ⟨gated_full_trace ep true false, by intro c hc; simp at hc⟩
  · refine ⟨gated_of_no_download _ ?_, by intro c hc; simp at hc⟩
    intro e he
    fin_cases he <;> rfl
  · refine ⟨gated_of_no_download _ ?_, by intro c hc; simp at hc⟩
    intro e he
    fin_cases he; rfl

/-- C1 witness: in an all-healthy environment the returned handle's
endpoint was successfully health checked inside the recorded trace. -/
theorem no_download_client_without_health_success_w :
    Event.checkDfdaemonDownload "sock" true ∈
      (get_dfdaemon_download_client_trace envAllOk "sock").2 :=
  (no_download_client_without_health_success envAllOk "sock").2 ⟨"sock"⟩ rfl

/-- C2: strict two-stage abort: when opening the health-check connection
fails, the bootstrap returns a connection error and the trace holds only
that failed opening (no health RPC, no download-client attempt); when
the health RPC reports not serving or errors, the bootstrap returns a
service-unavailable error and the trace holds no download-client
attempt. -/
theorem bootstrap_two_stage_abort (env : DaemonEnv) (ep : Endpoint) :
    (env.healthConnectOk ep = false →
      get_dfdaemon_download_client_trace env ep =
        (.error .healthConnectionError,
          [.healthClientNewUnix ep false])) ∧
    (env.healthConnectOk ep = true → env.downloadServing ep = false →
      get_dfdaemon_download_client_trace env ep =
        (.error .serviceUnavailableError,
          [.healthClientNewUnix ep true,
           .checkDfdaemonDownload ep false])) := by
  constructor
  · intro h1
    rw [get_trace_eq]
    simp [h1]
  · intro h1 h2
    rw [get_trace_eq]
    simp [h1, h2]

/-- C2 witness: both abort stages observed at a concrete endpoint. -/
theorem bootstrap_two_stage_abort_w :
    get_dfdaemon_download_client_trace envNoHealth "sock" =
      (.error .healthConnectionError,
        [.healthClientNewUnix "sock" false]) ∧
    get_dfdaemon_download_client_trace envNotServing "sock" =
      (.error .serviceUnavailableError,
        [.healthClientNewUnix "sock" true,
         .checkDfdaemonDownload "sock" false]) :=
  ⟨(bootstrap_two_stage_abort envNoHealth "sock").1 rfl,
   (bootstrap_two_stage_abort envNotServing "sock").2 rfl rfl⟩

/-- C3: when the health check succeeds but the download-client
connection fails, the bootstrap returns the download-stage connection
error, whose kind differs from both health-stage error kinds, so the
distinction is preserved for diagnostics. -/
theorem download_failure_error_distinct (env : DaemonEnv) (ep : Endpoint)
    (h1 : env.healthConnectOk ep = true)
    (h2 : env.downloadServing ep = true)
    (h3 : env.downloadConnectOk ep = false) :
    get_dfdaemon_download_client env ep =
      .error .downloadConnectionError ∧
    DfError.downloadConnectionError ≠ DfError.healthConnectionError ∧
    DfError.downloadConnectionError ≠ DfError.serviceUnavailableError := by
  refine ⟨?_, by decide, by decide⟩
  rw [get_eq_trace_fst, get_trace_eq]
  simp [h1, h2, h3]

/-- C3 witness: the distinct download-stage error observed concretely. -/
theorem download_failure_error_distinct_w :
    get_dfdaemon_download_client envDownloadDown "sock" =
      .error .downloadConnectionError ∧
    DfError.downloadConnectionError ≠ DfError.healthConnectionError ∧
    DfError.downloadConnectionError ≠ DfError.serviceUnavailableError :=
  download_failure_error_distinct envDownloadDown "sock" rfl rfl rfl

/-- C4: every external call in the bootstrap's trace carries exactly the
endpoint the bootstrap was given: the configured path is passed through
untransformed, so the health client and the download client of one
bootstrap use the same endpoint. -/
theorem same_endpoint_for_both_clients (env : DaemonEnv) (ep : Endpoint) :
    ∀ e ∈ (get_dfdaemon_download_client_trace env ep).2,
      Event.endpoint e = ep := by
  rw [get_trace_eq]
  split_ifs <;> intro e he <;> fin_cases he <;> rfl

/-- C4 witness: the download-client construction event of an all-healthy
run used the configured endpoint. -/
theorem same_endpoint_for_both_clients_w :
    Event.endpoint
      (Event.dfdaemonDownloadClientNewUnix "sock" true) = "sock" :=
  same_endpoint_for_both_clients envAllOk "sock" _ (by decide)

/-- A handler environment in which every handler succeeds. -/
def henvAllOk : HandlerEnv :=
  ⟨fun _ => .ok (), fun _ => .ok (), fun _ => .ok ()⟩

/-- C5: Command is a closed tagged union whose every value is exactly
one of Import, Export or Stat (exhaustive and pairwise distinct), and
the traced dispatch of execute invokes precisely the matching variant's
handler and no other, with no fallthrough. -/
theorem command_closed_and_exhaustive_dispatch :
    (∀ c : Command,
      (∃ x, c = Command.Import x) ∨ (∃ x, c = Command.Export x) ∨
        (∃ x, c = Command.Stat x)) ∧
    (∀ x y, Command.Import x ≠ Command.Export y) ∧
    (∀ x y, Command.Import x ≠ Command.Stat y) ∧
    (∀ x y, Command.Export x ≠ Command.Stat y) ∧
    (∀ henv x, Command.execute_trace henv (Command.Import x) =
      (henv.importExecute x, [HandlerCall.importCall])) ∧
    (∀ henv x, Command.execute_trace henv (Command.Export x) =
      (henv.exportExecute x, [HandlerCall.exportCall])) ∧
    (∀ henv x, Command.execute_trace henv (Command.Stat x) =
      (henv.statExecute x, [HandlerCall.statCall])) := by
  refine ⟨?_, ?_, ?_, ?_, ?_, ?_, ?_⟩
  · intro c
    cases c with
    | Import x => exact Or.inl ⟨x, rfl⟩
    | Export x => exact Or.inr (Or.inl ⟨x, rfl⟩)
    | Stat x => exact Or.inr (Or.inr ⟨x, rfl⟩)
  · intro x y h
    exact Command.noConfusion h
  · intro x y h
    exact Command.noConfusion h
  · intro x y h
    exact Command.noConfusion h
  · intro henv x
    rfl
  · intro henv x
    rfl
  · intro henv x
    rfl

/-- C5 witness: two concrete distinct variants are unequal, by the
theorem. -/
theorem command_closed_and_exhaustive_dispatch_w :
    Command.Import ⟨"/tmp/f", none, none, none⟩ ≠
      Command.Export ⟨"id", none⟩ :=
  command_closed_and_exhaustive_dispatch.2.1 _ _

/-- The entry point returns exactly what the selected command's execute
returned; shared by the claim proofs below. -/
theorem main_eq_execute (henv : HandlerEnv) (args : Args) :
    main henv args = Command.execute henv args.command := by
  cases hE : Command.execute henv args.command with
  | error e => simp [main, hE, Bind.bind, Except.bind]
  | ok u => simp [main, hE, Bind.bind, Except.bind, Pure.pure, Except.pure]

/-- The traced entry point pairs the execute result with the single
handler call of the selected variant; shared by the claim proofs
below. -/
theorem main_trace_eq (henv : HandlerEnv) (args : Args) :
    main_trace henv args =
      (Command.execute henv args.command,
        [handlerCallOf args.command]) := by
  obtain ⟨v, cmd⟩ := args
  cases cmd with
  | Import x =>
    cases hE : henv.importExecute x <;>
      simp [main_trace, Command.execute_trace, Command.execute,
        handlerCallOf, hE]
  | Export x =>
    cases hE : henv.exportExecute x <;>
      simp [main_trace, Command.execute_trace, Command.execute,
        handlerCallOf, hE]
  | Stat x =>
    cases hE : henv.statExecute x <;>
      simp [main_trace, Command.execute_trace, Command.execute,
        handlerCallOf, hE]

/-- C6: every handler error propagates unchanged through execute to the
entry point with no retry and no downgrade: main's result equals the
selected command's execute result (so the process outcome is success
exactly when execute succeeded), and exactly one handler is invoked. -/
theorem errors_propagate_unchanged_to_main (henv : HandlerEnv) (v : Bool)
    (cmd : Command) :
    main henv ⟨v, cmd⟩ = Command.execute henv cmd ∧
    main_trace henv ⟨v, cmd⟩ =
      (Command.execute henv cmd, [handlerCallOf cmd]) :=
  ⟨main_eq_execute henv ⟨v, cmd⟩, main_trace_eq henv ⟨v, cmd⟩⟩

/-- C7: with the top-level version flag set, the invocation prints
version metadata and dispatches no handler; without it, no version
metadata is printed and exactly the selected variant's handler is
dispatched. -/
theorem version_flag_bypasses_dispatch (henv : HandlerEnv)
    (cmd : Command) :
    run henv true cmd = ⟨true, .ok (), []⟩ ∧
    (run henv false cmd).versionPrinted = false ∧
    (run henv false cmd).calls = [handlerCallOf cmd] := by
  refine ⟨rfl, rfl, ?_⟩
  simp [run, parseArgs, main_trace_eq]

/-- C8: on success the bootstrap returns exactly the client opened by
`DfdaemonDownloadClient::new_unix` on the given endpoint, and success
implies the health stage succeeded there, so a bootstrapped client is
never produced without that check. -/
theorem bootstrap_returns_opened_client (env : DaemonEnv) (ep : Endpoint)
    (c : DfdaemonDownloadClient)
    (h : get_dfdaemon_download_client env ep = .ok c) :
    DfdaemonDownloadClient.new_unix env ep = .ok c ∧
    c.endpoint = ep ∧
    env.healthConnectOk ep = true ∧ env.downloadServing ep = true := by
  rw [get_eq_trace_fst, get_trace_eq] at h
  split_ifs at h with h1 h2 h3
  simp only [Except.ok.injEq] at h
  subst h
  exact ⟨by simp [DfdaemonDownloadClient.new_unix, h3], rfl, h1, h2⟩

/-- C8 witness: in an all-healthy environment the returned client is the
one new_unix opened on the configured endpoint. -/
theorem bootstrap_returns_opened_client_w :
    DfdaemonDownloadClient.new_unix envAllOk "sock" = .ok ⟨"sock"⟩ ∧
    DfdaemonDownloadClient.endpoint ⟨"sock"⟩ = "sock" ∧
    envAllOk.healthConnectOk "sock" = true ∧
    envAllOk.downloadServing "sock" = true :=
  bootstrap_returns_opened_client envAllOk "sock" ⟨"sock"⟩ rfl

/-- C9: the bootstrap succeeds exactly when all three steps succeed, in
every failure case returns the error of the first failing step, and
attempts each external step at most once. -/
theorem bootstrap_first_failure_result (env : DaemonEnv) (ep : Endpoint) :
    get_dfdaemon_download_client env ep =
      (if env.healthConnectOk ep then
        if env.downloadServing ep then
          if env.downloadConnectOk ep then .ok ⟨ep⟩
          else .error .downloadConnectionError
        else .error .serviceUnavailableError
      else .error .healthConnectionError) ∧
    ((get_dfdaemon_download_client_trace env ep).2.filter
      Event.isHealthNew).length ≤ 1 ∧
    ((get_dfdaemon_download_client_trace env ep).2.filter
      Event.isCheck).length ≤ 1 ∧
    ((get_dfdaemon_download_client_trace env ep).2.filter
      Event.isDownloadNew).length ≤ 1 := by
  rw [get_eq_trace_fst, get_trace_eq]
  split_ifs <;>
    simp [Event.isHealthNew, Event.isCheck, Event.isDownloadNew]

/-- C10: after parsing, the entry point's behavior depends only on the
parsed command and not on the version field: Args differing only in the
version flag give the same result and the same handler trace. -/
theorem main_independent_of_version_field (henv : HandlerEnv)
    (v1 v2 : Bool) (cmd : Command) :
    main henv ⟨v1, cmd⟩ = main henv ⟨v2, cmd⟩ ∧
    main_trace henv ⟨v1, cmd⟩ = main_trace henv ⟨v2, cmd⟩ :=
  ⟨rfl, rfl⟩

end Dfcache
